import Mathlib

/-!
Shallow embedding of the Maxwell DMA copy engine
(`src/video_core/engines/maxwell_dma.cpp`, yuzu fork).

The engine is register-driven: `CallMethod` stores a 32-bit word into the
register file and, when the written slot is the execute trigger, runs
`HandleCopy`.  `HandleCopy` validates the configuration with fatal
assertions, notifies the render-state tracker, and either performs
linear/linear block copies, or (for mixed linear/tiled requests) resolves
host pointers, flushes/invalidates cache ranges and invokes the swizzle or
deswizzle transform.

The embedding turns each externally visible action into an `Event` and
models `HandleCopy` as the list of events it emits, in order.  Assertions
(`ASSERT`, `ASSERT_MSG`, `UNREACHABLE_MSG` in the source, which abort) end
the trace.  Register fields are 32-bit words, so products of two register
values wrap modulo `2^32` (C++ unsigned arithmetic); `std::size_t`
products wrap modulo `2^64`; device addresses are 64-bit.
-/

namespace MaxwellDMA

/-- Identifies which fatal assertion of the source fired. -/
inductive AssertId where
  | enableSwizzle
  | queryMode
  | queryIntr
  | copyModeUnk
  | dstPosX
  | dstPosY
  | enable2d
  | srcSizeZ
  | dstSizeZ
  | srcPitchNeXCount
  | invalidRegister
  deriving DecidableEq, Repr

/-- Externally visible actions of the engine, in program order. -/
inductive Event where
  | assertFail (id : AssertId)
  | unreachableTiledTiled
  | notifyMemoryWritten
  | copyBlock (dst src count : Nat)
  | errorSourcePtr
  | errorDestPtr
  | flushRegion (ptr size : Nat)
  | invalidateRegion (ptr size : Nat)
  | unswizzleSubrect (x y dstPitch srcWidth bpp srcPtr dstPtr blockHeight offX offY : Nat)
  | swizzleSubrect (x y srcPitch dstWidth bpp dstPtr srcPtr blockHeight : Nat)
  deriving DecidableEq, Repr

/-- Modelled from the spec: the tiled-surface layout register group
(`src_params`/`dst_params`); the field layout lives in the missing header
`maxwell_dma.h`.  `block_height_log2` is the raw register field, the
descriptor's block height being derived from it. -/
structure Parameters where
  pos_x : Nat
  pos_y : Nat
  size_x : Nat
  size_y : Nat
  size_z : Nat
  block_height_log2 : Nat
  deriving DecidableEq, Repr

/-- Modelled from the spec: `BlockHeight()` of the missing header derives
the descriptor block height from the raw log2 register field. -/
def Parameters.BlockHeight (p : Parameters) : Nat :=
  2 ^ p.block_height_log2

/-- Modelled from the spec: the bitfields of the `exec` register.  Query
mode, query interrupt and copy mode are kept as numeric codes since the
enumerations live in the missing header. -/
structure ExecFields where
  enable_swizzle : Bool
  query_mode : Nat
  query_intr : Nat
  copy_mode : Nat
  is_src_linear : Bool
  is_dst_linear : Bool
  enable_2d : Bool
  deriving DecidableEq, Repr

/-- Modelled from the spec: numeric code of `Regs::QueryMode::None`. -/
def QueryModeNone : Nat := 0

/-- Modelled from the spec: numeric code of `Regs::QueryIntr::None`. -/
def QueryIntrNone : Nat := 0

/-- Modelled from the spec: numeric code of `Regs::CopyMode::Unk2`, the one
supported copy mode. -/
def CopyModeUnk2 : Nat := 2

/-- The register fields `HandleCopy` reads.  Addresses are the composed
40-bit-wide device virtual addresses (`src_address.Address()` in the
source); pitches and counts are 32-bit words. -/
structure Regs where
  src_address : Nat
  dst_address : Nat
  src_pitch : Nat
  dst_pitch : Nat
  x_count : Nat
  y_count : Nat
  exec : ExecFields
  src_params : Parameters
  dst_params : Parameters
  deriving DecidableEq, Repr

/-- Wrap modulus of 32-bit unsigned arithmetic. -/
def U32 : Nat := 2 ^ 32

/-- Wrap modulus of 64-bit (`std::size_t`, `GPUVAddr`) arithmetic. -/
def U64 : Nat := 2 ^ 64

/-- Events of the destination-linear, source-tiled branch: flush the source
range, invalidate the destination range, then deswizzle.  `copy_size` is
`x_count * y_count` computed in 32-bit arithmetic before widening to
`std::size_t`. -/
def deswizzleEvents (regs : Regs) (source_ptr dst_ptr : Nat) : List Event :=
  if regs.src_params.size_z ≠ 1 then [.assertFail .srcSizeZ]
  else
    let src_bytes_per_pixel := regs.src_pitch / regs.src_params.size_x
    [.flushRegion source_ptr (regs.src_pitch * regs.src_params.size_y % U32),
     .invalidateRegion dst_ptr ((regs.x_count * regs.y_count % U32) * src_bytes_per_pixel % U64),
     .unswizzleSubrect regs.x_count regs.y_count regs.dst_pitch regs.src_params.size_x
       src_bytes_per_pixel source_ptr dst_ptr regs.src_params.BlockHeight
       regs.src_params.pos_x regs.src_params.pos_y]

/-- Events of the source-linear, destination-tiled branch: flush the source
range, invalidate the destination range, then swizzle. -/
def swizzleEvents (regs : Regs) (source_ptr dst_ptr : Nat) : List Event :=
  if regs.dst_params.size_z ≠ 1 then [.assertFail .dstSizeZ]
  else if regs.src_pitch ≠ regs.x_count then [.assertFail .srcPitchNeXCount]
  else
    let src_bpp := regs.src_pitch / regs.x_count
    [.flushRegion source_ptr (regs.src_pitch * regs.y_count % U32),
     .invalidateRegion dst_ptr
       (regs.dst_params.size_x * regs.dst_params.size_y * src_bpp % U32),
     .swizzleSubrect regs.x_count regs.y_count regs.src_pitch regs.dst_params.size_x
       src_bpp dst_ptr source_ptr regs.dst_params.BlockHeight]

/-- Events emitted after the memory-written notification: the linear/linear
paths (1D block copy or per-row copies), or the mixed linear/tiled path
(2D-mode assertion, pointer resolution, then flush/invalidate/transform).
`getPointer` models `memory_manager.GetPointer`. -/
def copyEvents (getPointer : Nat → Option Nat) (regs : Regs) : List Event :=
  if regs.exec.is_dst_linear && regs.exec.is_src_linear then
    if !regs.exec.enable_2d then
      [.copyBlock regs.dst_address regs.src_address regs.x_count]
    else
      (List.range regs.y_count).map fun line =>
        .copyBlock ((regs.dst_address + line * regs.dst_pitch % U32) % U64)
                   ((regs.src_address + line * regs.src_pitch % U32) % U64)
                   regs.x_count
  else if !regs.exec.enable_2d then [.assertFail .enable2d]
  else
    match getPointer regs.src_address, getPointer regs.dst_address with
    | none, _ => [.errorSourcePtr]
    | some _, none => [.errorDestPtr]
    | some source_ptr, some dst_ptr =>
      if regs.exec.is_dst_linear && !regs.exec.is_src_linear then
        deswizzleEvents regs source_ptr dst_ptr
      else
        swizzleEvents regs source_ptr dst_ptr

/-- Trace of one `MaxwellDMA::HandleCopy` invocation: the six unsupported
feature assertions, the tiled/tiled rejection, the unconditional
`dirty_flags.OnMemoryWrite()` notification, then the selected copy path. -/
def HandleCopy (getPointer : Nat → Option Nat) (regs : Regs) : List Event :=
  if regs.exec.enable_swizzle then [.assertFail .enableSwizzle]
  else if regs.exec.query_mode ≠ QueryModeNone then [.assertFail .queryMode]
  else if regs.exec.query_intr ≠ QueryIntrNone then [.assertFail .queryIntr]
  else if regs.exec.copy_mode ≠ CopyModeUnk2 then [.assertFail .copyModeUnk]
  else if regs.dst_params.pos_x ≠ 0 then [.assertFail .dstPosX]
  else if regs.dst_params.pos_y ≠ 0 then [.assertFail .dstPosY]
  else if !regs.exec.is_dst_linear && !regs.exec.is_src_linear then
    [.unreachableTiledTiled]
  else
    Event.notifyMemoryWritten :: copyEvents getPointer regs

/-- One register write arriving at `MaxwellDMA::CallMethod`. -/
structure MethodCall where
  method : Nat
  argument : Nat
  deriving DecidableEq, Repr

/-- Trace of `MaxwellDMA::CallMethod`.  Modelled from the spec where the
missing header decides: the register file is a fixed-size array of 32-bit
words (abstracted as `Nat → Nat` with declared count `NUM_REGS`), the
execute-trigger slot index is `exec_index`, and `decode` is the stable
field layout mapping the word array to the named registers.  The source
asserts `method < NUM_REGS` (fatal), stores the argument, then runs
`HandleCopy` when the slot is the execute trigger.  Returns the updated
register array and the emitted events. -/
def CallMethod (NUM_REGS exec_index : Nat) (decode : (Nat → Nat) → Regs)
    (getPointer : Nat → Option Nat) (reg_array : Nat → Nat) (mc : MethodCall) :
    (Nat → Nat) × List Event :=
  if mc.method < NUM_REGS then
    let reg2 := Function.update reg_array mc.method mc.argument
    (reg2,
      if mc.method = exec_index then HandleCopy getPointer (decode reg2) else [])
  else
    (reg_array, [Event.assertFail .invalidRegister])

/-- An event that writes bytes to device memory: a linear block copy or a
layout transform. -/
def Event.isWrite : Event → Bool
  | .copyBlock _ _ _ => true
  | .unswizzleSubrect _ _ _ _ _ _ _ _ _ _ => true
  | .swizzleSubrect _ _ _ _ _ _ _ _ => true
  | _ => false

/-- An event invoking the layout-transform collaborator. -/
def Event.isTransform : Event → Bool
  | .unswizzleSubrect _ _ _ _ _ _ _ _ _ _ => true
  | .swizzleSubrect _ _ _ _ _ _ _ _ => true
  | _ => false

/-- An explicit cache action (`FlushRegion` or `InvalidateRegion`). -/
def Event.isCacheAction : Event → Bool
  | .flushRegion _ _ => true
  | .invalidateRegion _ _ => true
  | _ => false

/-- A fatal event: a failed assertion or the tiled/tiled `UNREACHABLE_MSG`. -/
def Event.isFatal : Event → Bool
  | .assertFail _ => true
  | .unreachableTiledTiled => true
  | _ => false

/-- The six unsupported-feature checks of validation step 1 all pass. -/
def validationOk (regs : Regs) : Prop :=
  regs.exec.enable_swizzle = false ∧
  regs.exec.query_mode = QueryModeNone ∧
  regs.exec.query_intr = QueryIntrNone ∧
  regs.exec.copy_mode = CopyModeUnk2 ∧
  regs.dst_params.pos_x = 0 ∧
  regs.dst_params.pos_y = 0

instance (regs : Regs) : Decidable (validationOk regs) := by
  unfold validationOk; infer_instance

end MaxwellDMA

namespace MaxwellDMA

/-! ### Helper lemmas (shared) -/

/-- When any unsupported-feature check fails, `HandleCopy` stops at the first
failing assertion and emits nothing else. -/
theorem handleCopy_of_not_validationOk (gp : Nat → Option Nat) (regs : Regs)
    (h : ¬ validationOk regs) :
    ∃ id, HandleCopy gp regs = [Event.assertFail id] := by
  unfold HandleCopy
  split_ifs with h1 h2 h3 h4 h5 h6 h7
  any_goals exact ⟨_, rfl⟩
  all_goals
    exact absurd ⟨by simpa using h1, by simpa using h2, by simpa using h3,
      by simpa using h4, by simpa using h5, by simpa using h6⟩ h

/-- When validation passes and at least one side is linear, `HandleCopy` is
the notification followed by the copy events. -/
theorem handleCopy_of_validationOk (gp : Nat → Option Nat) (regs : Regs)
    (hv : validationOk regs)
    (hlin : regs.exec.is_src_linear = true ∨ regs.exec.is_dst_linear = true) :
    HandleCopy gp regs = Event.notifyMemoryWritten :: copyEvents gp regs := by
  obtain ⟨h1, h2, h3, h4, h5, h6⟩ := hv
  unfold HandleCopy
  rcases hlin with h | h <;> simp [h1, h2, h3, h4, h5, h6, h]

/-- The memory-written notification is never among the copy events. -/
theorem notify_not_mem_copyEvents (gp : Nat → Option Nat) (regs : Regs) :
    Event.notifyMemoryWritten ∉ copyEvents gp regs := by
  unfold copyEvents deswizzleEvents swizzleEvents
  rcases gp regs.src_address with _ | sp <;> rcases gp regs.dst_address with _ | dp <;>
    split_ifs <;> simp

end MaxwellDMA

namespace MaxwellDMA

/-- Linear-to-linear path with the 2D bit clear: one contiguous block copy. -/
theorem copyEvents_linear_1d (gp : Nat → Option Nat) (regs : Regs)
    (hs : regs.exec.is_src_linear = true) (hd : regs.exec.is_dst_linear = true)
    (h2 : regs.exec.enable_2d = false) :
    copyEvents gp regs =
      [Event.copyBlock regs.dst_address regs.src_address regs.x_count] := by
  unfold copyEvents; simp [hs, hd, h2]

/-- Linear-to-linear path with the 2D bit set: one copy per row. -/
theorem copyEvents_linear_2d (gp : Nat → Option Nat) (regs : Regs)
    (hs : regs.exec.is_src_linear = true) (hd : regs.exec.is_dst_linear = true)
    (h2 : regs.exec.enable_2d = true) :
    copyEvents gp regs =
      (List.range regs.y_count).map fun line =>
        Event.copyBlock ((regs.dst_address + line * regs.dst_pitch % U32) % U64)
                        ((regs.src_address + line * regs.src_pitch % U32) % U64)
                        regs.x_count := by
  unfold copyEvents; simp [hs, hd, h2]

/-- On a mixed request, the two linear flags differ so their conjunction is
false. -/
theorem and_eq_false_of_ne {a b : Bool} (h : a ≠ b) : (b && a) = false := by
  cases a <;> cases b <;> simp_all

/-- Mixed linear/tiled path with the 2D bit clear: the `enable_2d` assertion
fires. -/
theorem copyEvents_mixed_no2d (gp : Nat → Option Nat) (regs : Regs)
    (hmix : regs.exec.is_src_linear ≠ regs.exec.is_dst_linear)
    (h2 : regs.exec.enable_2d = false) :
    copyEvents gp regs = [Event.assertFail AssertId.enable2d] := by
  unfold copyEvents; simp [and_eq_false_of_ne hmix, h2]

/-- Mixed path: source pointer resolution fails. -/
theorem copyEvents_mixed_src_fail (gp : Nat → Option Nat) (regs : Regs)
    (hmix : regs.exec.is_src_linear ≠ regs.exec.is_dst_linear)
    (h2 : regs.exec.enable_2d = true)
    (hgs : gp regs.src_address = none) :
    copyEvents gp regs = [Event.errorSourcePtr] := by
  unfold copyEvents; simp [and_eq_false_of_ne hmix, h2, hgs]

/-- Mixed path: source pointer resolves but destination pointer fails. -/
theorem copyEvents_mixed_dst_fail (gp : Nat → Option Nat) (regs : Regs) (sp : Nat)
    (hmix : regs.exec.is_src_linear ≠ regs.exec.is_dst_linear)
    (h2 : regs.exec.enable_2d = true)
    (hgs : gp regs.src_address = some sp)
    (hgd : gp regs.dst_address = none) :
    copyEvents gp regs = [Event.errorDestPtr] := by
  unfold copyEvents; simp [and_eq_false_of_ne hmix, h2, hgs, hgd]

/-- Destination-linear source-tiled path with both pointers resolved. -/
theorem copyEvents_deswizzle (gp : Nat → Option Nat) (regs : Regs) (sp dp : Nat)
    (hs : regs.exec.is_src_linear = false) (hd : regs.exec.is_dst_linear = true)
    (h2 : regs.exec.enable_2d = true)
    (hgs : gp regs.src_address = some sp)
    (hgd : gp regs.dst_address = some dp) :
    copyEvents gp regs = deswizzleEvents regs sp dp := by
  unfold copyEvents; simp [hs, hd, h2, hgs, hgd]

/-- Source-linear destination-tiled path with both pointers resolved. -/
theorem copyEvents_swizzle (gp : Nat → Option Nat) (regs : Regs) (sp dp : Nat)
    (hs : regs.exec.is_src_linear = true) (hd : regs.exec.is_dst_linear = false)
    (h2 : regs.exec.enable_2d = true)
    (hgs : gp regs.src_address = some sp)
    (hgd : gp regs.dst_address = some dp) :
    copyEvents gp regs = swizzleEvents regs sp dp := by
  unfold copyEvents; simp [hs, hd, h2, hgs, hgd]

/-! ### Claim theorems -/

/-- Claim C3: for every request that passes validation steps 1–2 (all
unsupported-feature checks pass and not tiled-to-tiled), the memory-written
notification `OnMemoryWrite` is the very first emitted event and occurs
exactly once, before any byte move, flush, invalidate or transform, and it
occurs even when a subsequent pointer resolution fails. -/
theorem handleCopy_notify_exactly_once (gp : Nat → Option Nat) (regs : Regs)
    (hv : validationOk regs)
    (hlin : regs.exec.is_src_linear = true ∨ regs.exec.is_dst_linear = true) :
    ∃ rest, HandleCopy gp regs = Event.notifyMemoryWritten :: rest ∧
      Event.notifyMemoryWritten ∉ rest :=
  ⟨_, handleCopy_of_validationOk gp regs hv hlin, notify_not_mem_copyEvents gp regs⟩

/-- Witness for C3: a mixed request whose pointer resolution fails still
notifies exactly once, first. -/
theorem handleCopy_notify_exactly_once_witness :
    ∃ rest,
      HandleCopy (fun _ => none)
          ⟨0, 0, 0, 0, 0, 0, ⟨false, 0, 0, 2, false, true, true⟩,
           ⟨0, 0, 0, 0, 1, 0⟩, ⟨0, 0, 0, 0, 1, 0⟩⟩ =
        Event.notifyMemoryWritten :: rest ∧
      Event.notifyMemoryWritten ∉ rest :=
  handleCopy_notify_exactly_once _ _ ⟨rfl, rfl, rfl, rfl, rfl, rfl⟩ (Or.inr rfl)

/-- Claim C6, counterexample to the unrestricted statement: a tiled-to-tiled
request that also has `enable_swizzle` set dies on the swizzle assertion
first, so the unimplemented-configuration (tiled-to-tiled) rejection is
never reported for it. -/
theorem handleCopy_tiled_tiled_claim_cex :
    Event.unreachableTiledTiled ∉
      HandleCopy (fun _ => none)
        ⟨0, 0, 0, 0, 0, 0, ⟨true, 0, 0, 2, false, false, true⟩,
         ⟨0, 0, 0, 0, 1, 0⟩, ⟨0, 0, 0, 0, 1, 0⟩⟩ := by decide

/-- Claim C6 (amended): every tiled-to-tiled request that passes the
unsupported-feature validation reports the unimplemented-configuration
failure and stops: no bytes moved, no cache action, and no memory-written
notification. -/
theorem handleCopy_tiled_tiled_rejected (gp : Nat → Option Nat) (regs : Regs)
    (hv : validationOk regs)
    (hs : regs.exec.is_src_linear = false) (hd : regs.exec.is_dst_linear = false) :
    HandleCopy gp regs = [Event.unreachableTiledTiled] ∧
    ∀ e ∈ HandleCopy gp regs,
      e.isWrite = false ∧ e.isCacheAction = false ∧ e ≠ Event.notifyMemoryWritten := by
  obtain ⟨h1, h2, h3, h4, h5, h6⟩ := hv
  have ht : HandleCopy gp regs = [Event.unreachableTiledTiled] := by
    unfold HandleCopy; simp [h1, h2, h3, h4, h5, h6, hs, hd]
  refine ⟨ht, ?_⟩
  rw [ht]
  simp [Event.isWrite, Event.isCacheAction]

/-- Witness for the amended C6. -/
theorem handleCopy_tiled_tiled_rejected_witness :
    HandleCopy (fun _ => none)
        ⟨0, 0, 0, 0, 0, 0, ⟨false, 0, 0, 2, false, false, true⟩,
         ⟨0, 0, 0, 0, 1, 0⟩, ⟨0, 0, 0, 0, 1, 0⟩⟩ =
      [Event.unreachableTiledTiled] ∧
    ∀ e ∈ HandleCopy (fun _ => none)
        ⟨0, 0, 0, 0, 0, 0, ⟨false, 0, 0, 2, false, false, true⟩,
         ⟨0, 0, 0, 0, 1, 0⟩, ⟨0, 0, 0, 0, 1, 0⟩⟩,
      e.isWrite = false ∧ e.isCacheAction = false ∧ e ≠ Event.notifyMemoryWritten :=
  handleCopy_tiled_tiled_rejected _ _ ⟨rfl, rfl, rfl, rfl, rfl, rfl⟩ rfl rfl

/-- Claim C7: a valid linear-to-linear request with `enable_2d` clear issues
exactly one contiguous block copy of `x_count` elements from the source
address to the destination address; no transform and no explicit cache
action occurs on this path. -/
theorem handleCopy_linear_1d_single_block (gp : Nat → Option Nat) (regs : Regs)
    (hv : validationOk regs)
    (hs : regs.exec.is_src_linear = true) (hd : regs.exec.is_dst_linear = true)
    (h2 : regs.exec.enable_2d = false) :
    HandleCopy gp regs =
      [Event.notifyMemoryWritten,
       Event.copyBlock regs.dst_address regs.src_address regs.x_count] ∧
    ∀ e ∈ HandleCopy gp regs, e.isTransform = false ∧ e.isCacheAction = false := by
  have ht : HandleCopy gp regs =
      [Event.notifyMemoryWritten,
       Event.copyBlock regs.dst_address regs.src_address regs.x_count] := by
    rw [handleCopy_of_validationOk gp regs hv (Or.inl hs),
      copyEvents_linear_1d gp regs hs hd h2]
  refine ⟨ht, ?_⟩
  rw [ht]
  simp [Event.isTransform, Event.isCacheAction]

/-- Witness for C7: a 5-element 1D copy from address 7 to address 100. -/
theorem handleCopy_linear_1d_single_block_witness :
    HandleCopy (fun _ => none)
        ⟨7, 100, 0, 0, 5, 0, ⟨false, 0, 0, 2, true, true, false⟩,
         ⟨0, 0, 0, 0, 1, 0⟩, ⟨0, 0, 0, 0, 1, 0⟩⟩ =
      [Event.notifyMemoryWritten, Event.copyBlock 100 7 5] ∧
    ∀ e ∈ HandleCopy (fun _ => none)
        ⟨7, 100, 0, 0, 5, 0, ⟨false, 0, 0, 2, true, true, false⟩,
         ⟨0, 0, 0, 0, 1, 0⟩, ⟨0, 0, 0, 0, 1, 0⟩⟩,
      e.isTransform = false ∧ e.isCacheAction = false :=
  handleCopy_linear_1d_single_block _ _ ⟨rfl, rfl, rfl, rfl, rfl, rfl⟩ rfl rfl rfl

end MaxwellDMA

namespace MaxwellDMA

/-- Claim C1: for every request whose configuration fails validation
(`enable_swizzle` set, `query_mode` or `query_intr` not `None`, `copy_mode`
not the supported value, nonzero destination layout offset, or a mixed
linear/tiled request with `enable_2d` clear), `HandleCopy` reports an
unsupported-feature failure (a fatal assertion) and writes no bytes to
device memory. -/
theorem handleCopy_unsupported_no_write (gp : Nat → Option Nat) (regs : Regs)
    (h : regs.exec.enable_swizzle = true ∨ regs.exec.query_mode ≠ QueryModeNone ∨
         regs.exec.query_intr ≠ QueryIntrNone ∨ regs.exec.copy_mode ≠ CopyModeUnk2 ∨
         ¬(regs.dst_params.pos_x = 0 ∧ regs.dst_params.pos_y = 0) ∨
         (regs.exec.is_src_linear ≠ regs.exec.is_dst_linear ∧
           regs.exec.enable_2d = false)) :
    (∃ id, Event.assertFail id ∈ HandleCopy gp regs) ∧
      ∀ e ∈ HandleCopy gp regs, e.isWrite = false := by
  by_cases hv : validationOk regs
  · obtain ⟨h1, h2, h3, h4, h5, h6⟩ := hv
    have hmix : regs.exec.is_src_linear ≠ regs.exec.is_dst_linear ∧
        regs.exec.enable_2d = false := by
      rcases h with h | h | h | h | h | h
      · rw [h1] at h; exact absurd h (by decide)
      · exact absurd h2 h
      · exact absurd h3 h
      · exact absurd h4 h
      · exact absurd ⟨h5, h6⟩ h
      · exact h
    obtain ⟨hne, h2d⟩ := hmix
    have hlin : regs.exec.is_src_linear = true ∨ regs.exec.is_dst_linear = true := by
      cases hsb : regs.exec.is_src_linear
      · cases hdb : regs.exec.is_dst_linear
        · rw [hsb, hdb] at hne; exact absurd rfl hne
        · exact Or.inr rfl
      · exact Or.inl rfl
    have ht : HandleCopy gp regs =
        [Event.notifyMemoryWritten, Event.assertFail AssertId.enable2d] := by
      rw [handleCopy_of_validationOk gp regs ⟨h1, h2, h3, h4, h5, h6⟩ hlin,
        copyEvents_mixed_no2d gp regs hne h2d]
    rw [ht]
    exact ⟨⟨AssertId.enable2d, by simp⟩, by simp [Event.isWrite]⟩
  · obtain ⟨id, hid⟩ := handleCopy_of_not_validationOk gp regs hv
    rw [hid]
    exact ⟨⟨id, by simp⟩, by simp [Event.isWrite]⟩

/-- Witness for C1: a request with `enable_swizzle` set fails with an
assertion and writes nothing. -/
theorem handleCopy_unsupported_no_write_witness :
    (∃ id, Event.assertFail id ∈
      HandleCopy (fun _ => none)
        ⟨0, 0, 0, 0, 0, 0, ⟨true, 0, 0, 2, true, true, true⟩,
         ⟨0, 0, 0, 0, 1, 0⟩, ⟨0, 0, 0, 0, 1, 0⟩⟩) ∧
    ∀ e ∈ HandleCopy (fun _ => none)
        ⟨0, 0, 0, 0, 0, 0, ⟨true, 0, 0, 2, true, true, true⟩,
         ⟨0, 0, 0, 0, 1, 0⟩, ⟨0, 0, 0, 0, 1, 0⟩⟩,
      e.isWrite = false :=
  handleCopy_unsupported_no_write _ _ (Or.inl rfl)

/-- Claim C2, counterexample to the claimed address formula: with source
pitch `2^31`, `y_count = 3` and `x_count = 1`, row 2's source offset
`2 * 2^31` wraps to `0` in the source's 32-bit arithmetic, so the copy at
the unwrapped address `source_address + 2 * 2^31` claimed by C2 never
occurs. -/
theorem handleCopy_linear_2d_rows_cex :
    Event.copyBlock (0 + 2 * 0) (0 + 2 * 2 ^ 31) 1 ∉
      HandleCopy (fun _ => none)
        ⟨0, 0, 2 ^ 31, 0, 1, 3, ⟨false, 0, 0, 2, true, true, true⟩,
         ⟨0, 0, 0, 0, 1, 0⟩, ⟨0, 0, 0, 0, 1, 0⟩⟩ := by decide

/-- Claim C2 (amended): a valid linear-to-linear request with `enable_2d`
set and `y_count = N` performs exactly `N` row copies in increasing row
order; row `line` copies `x_count` elements from
`source_address + (line * source_pitch mod 2^32)` to
`destination_address + (line * destination_pitch mod 2^32)` (the line
offsets are computed in 32-bit arithmetic and the device address in 64-bit
arithmetic), and the layout-transform collaborator is never invoked. -/
theorem handleCopy_linear_2d_rows (gp : Nat → Option Nat) (regs : Regs)
    (hv : validationOk regs)
    (hs : regs.exec.is_src_linear = true) (hd : regs.exec.is_dst_linear = true)
    (h2 : regs.exec.enable_2d = true) :
    HandleCopy gp regs =
      Event.notifyMemoryWritten ::
        (List.range regs.y_count).map (fun line =>
          Event.copyBlock ((regs.dst_address + line * regs.dst_pitch % U32) % U64)
                          ((regs.src_address + line * regs.src_pitch % U32) % U64)
                          regs.x_count) ∧
    ∀ e ∈ HandleCopy gp regs, e.isTransform = false := by
  rw [handleCopy_of_validationOk gp regs hv (Or.inl hs),
    copyEvents_linear_2d gp regs hs hd h2]
  refine ⟨rfl, ?_⟩
  intro e he
  rcases List.mem_cons.mp he with rfl | he
  · rfl
  · obtain ⟨l, _, rfl⟩ := List.mem_map.mp he
    rfl

/-- Witness for the amended C2: two rows of five elements with pitches 3
and 10. -/
theorem handleCopy_linear_2d_rows_witness :
    HandleCopy (fun _ => none)
        ⟨7, 100, 3, 10, 5, 2, ⟨false, 0, 0, 2, true, true, true⟩,
         ⟨0, 0, 0, 0, 1, 0⟩, ⟨0, 0, 0, 0, 1, 0⟩⟩ =
      Event.notifyMemoryWritten ::
        (List.range 2).map (fun line =>
          Event.copyBlock ((100 + line * 10 % U32) % U64)
                          ((7 + line * 3 % U32) % U64) 5) ∧
    ∀ e ∈ HandleCopy (fun _ => none)
        ⟨7, 100, 3, 10, 5, 2, ⟨false, 0, 0, 2, true, true, true⟩,
         ⟨0, 0, 0, 0, 1, 0⟩, ⟨0, 0, 0, 0, 1, 0⟩⟩,
      e.isTransform = false :=
  handleCopy_linear_2d_rows _ _ ⟨rfl, rfl, rfl, rfl, rfl, rfl⟩ rfl rfl rfl

/-- Claim C4: every mixed linear/tiled request that reaches the
cache-coherency step flushes the source range before invalidating the
destination range, each exactly once, followed by the single transform. -/
theorem handleCopy_flush_precedes_invalidate (gp : Nat → Option Nat) (regs : Regs)
    (src_ptr dst_ptr : Nat)
    (hv : validationOk regs)
    (h2 : regs.exec.enable_2d = true)
    (hgs : gp regs.src_address = some src_ptr)
    (hgd : gp regs.dst_address = some dst_ptr)
    (hbranch :
      (regs.exec.is_src_linear = false ∧ regs.exec.is_dst_linear = true ∧
        regs.src_params.size_z = 1) ∨
      (regs.exec.is_src_linear = true ∧ regs.exec.is_dst_linear = false ∧
        regs.dst_params.size_z = 1 ∧ regs.src_pitch = regs.x_count)) :
    ∃ fsize isize t,
      HandleCopy gp regs =
        [Event.notifyMemoryWritten, Event.flushRegion src_ptr fsize,
         Event.invalidateRegion dst_ptr isize, t] ∧
      t.isTransform = true := by
  rcases hbranch with ⟨hs, hd, hz⟩ | ⟨hs, hd, hz, hp⟩
  · refine ⟨regs.src_pitch * regs.src_params.size_y % U32,
      (regs.x_count * regs.y_count % U32) *
        (regs.src_pitch / regs.src_params.size_x) % U64,
      Event.unswizzleSubrect regs.x_count regs.y_count regs.dst_pitch
        regs.src_params.size_x (regs.src_pitch / regs.src_params.size_x)
        src_ptr dst_ptr regs.src_params.BlockHeight
        regs.src_params.pos_x regs.src_params.pos_y,
      ?_, rfl⟩
    rw [handleCopy_of_validationOk gp regs hv (Or.inr hd),
      copyEvents_deswizzle gp regs src_ptr dst_ptr hs hd h2 hgs hgd]
    unfold deswizzleEvents
    simp [hz]
  · refine ⟨regs.src_pitch * regs.y_count % U32,
      regs.dst_params.size_x * regs.dst_params.size_y *
        (regs.src_pitch / regs.x_count) % U32,
      Event.swizzleSubrect regs.x_count regs.y_count regs.src_pitch
        regs.dst_params.size_x (regs.src_pitch / regs.x_count)
        dst_ptr src_ptr regs.dst_params.BlockHeight,
      ?_, rfl⟩
    rw [handleCopy_of_validationOk gp regs hv (Or.inl hs),
      copyEvents_swizzle gp regs src_ptr dst_ptr hs hd h2 hgs hgd]
    unfold swizzleEvents
    simp [hz, hp]

/-- Witness for C4: a tiled-to-linear request whose pointers resolve to 50
and 60. -/
theorem handleCopy_flush_precedes_invalidate_witness :
    ∃ fsize isize t,
      HandleCopy (fun a => if a = 7 then some 50 else some 60)
          ⟨7, 9, 8, 16, 4, 4, ⟨false, 0, 0, 2, false, true, true⟩,
           ⟨0, 0, 2, 4, 1, 0⟩, ⟨0, 0, 0, 0, 1, 0⟩⟩ =
        [Event.notifyMemoryWritten, Event.flushRegion 50 fsize,
         Event.invalidateRegion 60 isize, t] ∧
      t.isTransform = true :=
  handleCopy_flush_precedes_invalidate _ _ 50 60 ⟨rfl, rfl, rfl, rfl, rfl, rfl⟩
    rfl rfl rfl (Or.inl ⟨rfl, rfl, rfl⟩)

/-- Claim C5: a mixed linear/tiled request whose source or destination
pointer fails to resolve performs no flush, no invalidate, no transform and
no byte write, and ends without any fatal event: the failure is recoverable
and the engine remains usable. -/
theorem handleCopy_ptr_fail_recoverable (gp : Nat → Option Nat) (regs : Regs)
    (hv : validationOk regs)
    (hmix : regs.exec.is_src_linear ≠ regs.exec.is_dst_linear)
    (h2 : regs.exec.enable_2d = true)
    (hfail : gp regs.src_address = none ∨ gp regs.dst_address = none) :
    (HandleCopy gp regs = [Event.notifyMemoryWritten, Event.errorSourcePtr] ∨
     HandleCopy gp regs = [Event.notifyMemoryWritten, Event.errorDestPtr]) ∧
    ∀ e ∈ HandleCopy gp regs,
      e.isWrite = false ∧ e.isCacheAction = false ∧ e.isTransform = false ∧
        e.isFatal = false := by
  have hlin : regs.exec.is_src_linear = true ∨ regs.exec.is_dst_linear = true := by
    cases hsb : regs.exec.is_src_linear
    · cases hdb : regs.exec.is_dst_linear
      · rw [hsb, hdb] at hmix; exact absurd rfl hmix
      · exact Or.inr rfl
    · exact Or.inl rfl
  have h0 := handleCopy_of_validationOk gp regs hv hlin
  have hcase :
      HandleCopy gp regs = [Event.notifyMemoryWritten, Event.errorSourcePtr] ∨
      HandleCopy gp regs = [Event.notifyMemoryWritten, Event.errorDestPtr] := by
    rcases hgs : gp regs.src_address with _ | sp
    · exact Or.inl (by rw [h0, copyEvents_mixed_src_fail gp regs hmix h2 hgs])
    · rcases hgd : gp regs.dst_address with _ | dp
      · exact Or.inr
          (by rw [h0, copyEvents_mixed_dst_fail gp regs sp hmix h2 hgs hgd])
      · rcases hfail with hf | hf
        · rw [hgs] at hf; exact absurd hf (by simp)
        · rw [hgd] at hf; exact absurd hf (by simp)
  refine ⟨hcase, ?_⟩
  rcases hcase with hc | hc <;> rw [hc] <;>
    simp [Event.isWrite, Event.isCacheAction, Event.isTransform, Event.isFatal]

/-- Witness for C5: a mixed request on an entirely unmapped memory map. -/
theorem handleCopy_ptr_fail_recoverable_witness :
    (HandleCopy (fun _ => none)
        ⟨3, 4, 0, 0, 0, 0, ⟨false, 0, 0, 2, true, false, true⟩,
         ⟨0, 0, 0, 0, 1, 0⟩, ⟨0, 0, 0, 0, 1, 0⟩⟩ =
        [Event.notifyMemoryWritten, Event.errorSourcePtr] ∨
     HandleCopy (fun _ => none)
        ⟨3, 4, 0, 0, 0, 0, ⟨false, 0, 0, 2, true, false, true⟩,
         ⟨0, 0, 0, 0, 1, 0⟩, ⟨0, 0, 0, 0, 1, 0⟩⟩ =
        [Event.notifyMemoryWritten, Event.errorDestPtr]) ∧
    ∀ e ∈ HandleCopy (fun _ => none)
        ⟨3, 4, 0, 0, 0, 0, ⟨false, 0, 0, 2, true, false, true⟩,
         ⟨0, 0, 0, 0, 1, 0⟩, ⟨0, 0, 0, 0, 1, 0⟩⟩,
      e.isWrite = false ∧ e.isCacheAction = false ∧ e.isTransform = false ∧
        e.isFatal = false :=
  handleCopy_ptr_fail_recoverable _ _ ⟨rfl, rfl, rfl, rfl, rfl, rfl⟩ (by decide)
    rfl (Or.inl rfl)

end MaxwellDMA

namespace MaxwellDMA

/-- Claim C8, counterexample to the claimed invalidate size: with
`x_count = y_count = 2^16` and bytes-per-pixel 4, the source computes
`copy_size = x_count * y_count` in 32-bit arithmetic, which wraps to 0, so
the destination range actually invalidated is 0 bytes, not the claimed
`x_count * y_count * bytes_per_pixel = 2^34`. -/
theorem handleCopy_deswizzle_path_claim_cex :
    Event.invalidateRegion 0 (2 ^ 16 * 2 ^ 16 * 4) ∉
      HandleCopy (fun _ => some 0)
        ⟨0, 0, 4, 7, 2 ^ 16, 2 ^ 16, ⟨false, 0, 0, 2, false, true, true⟩,
         ⟨0, 0, 1, 1, 1, 0⟩, ⟨0, 0, 0, 0, 1, 0⟩⟩ := by decide

/-- Claim C8 (amended): a tiled-source destination-linear request that
passes validation and pointer resolution (with source depth `size_z = 1`)
flushes `source_pitch * source_layout.size_y mod 2^32` bytes at the source
pointer, invalidates `((x_count * y_count mod 2^32) * bytes_per_pixel)
mod 2^64` bytes at the destination pointer where
`bytes_per_pixel = source_pitch / source_layout.size_x`, then performs one
deswizzle call with arguments `x_count, y_count, destination_pitch,
source_layout.size_x, bytes_per_pixel, source_layout.block_height,
source_layout.pos_x, source_layout.pos_y` (the products wrap because the
registers are 32-bit and `copy_size` is computed in 32-bit arithmetic). -/
theorem handleCopy_deswizzle_path (gp : Nat → Option Nat) (regs : Regs)
    (src_ptr dst_ptr : Nat)
    (hv : validationOk regs)
    (hs : regs.exec.is_src_linear = false) (hd : regs.exec.is_dst_linear = true)
    (h2 : regs.exec.enable_2d = true)
    (hz : regs.src_params.size_z = 1)
    (hgs : gp regs.src_address = some src_ptr)
    (hgd : gp regs.dst_address = some dst_ptr) :
    HandleCopy gp regs =
      [Event.notifyMemoryWritten,
       Event.flushRegion src_ptr (regs.src_pitch * regs.src_params.size_y % U32),
       Event.invalidateRegion dst_ptr
         ((regs.x_count * regs.y_count % U32) *
           (regs.src_pitch / regs.src_params.size_x) % U64),
       Event.unswizzleSubrect regs.x_count regs.y_count regs.dst_pitch
         regs.src_params.size_x (regs.src_pitch / regs.src_params.size_x)
         src_ptr dst_ptr regs.src_params.BlockHeight
         regs.src_params.pos_x regs.src_params.pos_y] := by
  rw [handleCopy_of_validationOk gp regs hv (Or.inr hd),
    copyEvents_deswizzle gp regs src_ptr dst_ptr hs hd h2 hgs hgd]
  unfold deswizzleEvents
  simp [hz]

/-- Witness for the amended C8: a 4×2 tiled source of width 2 with pitch 8
(bytes-per-pixel 4). -/
theorem handleCopy_deswizzle_path_witness :
    HandleCopy (fun a => if a = 7 then some 50 else some 60)
        ⟨7, 9, 8, 16, 4, 2, ⟨false, 0, 0, 2, false, true, true⟩,
         ⟨0, 0, 2, 4, 1, 0⟩, ⟨0, 0, 0, 0, 1, 0⟩⟩ =
      [Event.notifyMemoryWritten,
       Event.flushRegion 50 (8 * 4 % U32),
       Event.invalidateRegion 60 ((4 * 2 % U32) * (8 / 2) % U64),
       Event.unswizzleSubrect 4 2 16 2 (8 / 2) 50 60
         (Parameters.BlockHeight ⟨0, 0, 2, 4, 1, 0⟩) 0 0] :=
  handleCopy_deswizzle_path _ _ 50 60 ⟨rfl, rfl, rfl, rfl, rfl, rfl⟩
    rfl rfl rfl rfl rfl rfl

/-- Claim C9: a register write with index inside the declared count stores
the value before any copy is triggered, so a copy triggered through the
execute slot decodes the just-written register array; an out-of-range index
is a fatal configuration error that stores nothing. -/
theorem callMethod_stores_before_copy (NUM_REGS exec_index : Nat)
    (decode : (Nat → Nat) → Regs) (gp : Nat → Option Nat)
    (reg_array : Nat → Nat) (mc : MethodCall) :
    (mc.method < NUM_REGS →
      CallMethod NUM_REGS exec_index decode gp reg_array mc =
        (Function.update reg_array mc.method mc.argument,
         if mc.method = exec_index then
           HandleCopy gp (decode (Function.update reg_array mc.method mc.argument))
         else [])) ∧
    (NUM_REGS ≤ mc.method →
      CallMethod NUM_REGS exec_index decode gp reg_array mc =
        (reg_array, [Event.assertFail AssertId.invalidRegister])) := by
  constructor
  · intro h
    unfold CallMethod
    rw [if_pos h]
  · intro h
    unfold CallMethod
    rw [if_neg (by omega)]

/-- Sample field decoding used by the C9 witness: word 0 is the source
address, word 1 the destination address, word 2 (the execute slot in the
witness) the element count; the remaining fields are a fixed valid
linear-to-linear 1D configuration. -/
def sampleDecode (rf : Nat → Nat) : Regs :=
  ⟨rf 0, rf 1, 0, 0, rf 2, 0, ⟨false, 0, 0, 2, true, true, false⟩,
   ⟨0, 0, 0, 0, 1, 0⟩, ⟨0, 0, 0, 0, 1, 0⟩⟩

/-- Witness for C9: writing the execute slot (index 2, register count 4)
stores value 5 first and the triggered copy decodes the updated array;
writing index 9 is the fatal out-of-range case and stores nothing. -/
theorem callMethod_stores_before_copy_witness :
    (CallMethod 4 2 sampleDecode (fun _ => none) (fun _ => 0) ⟨2, 5⟩ =
      (Function.update (fun _ => 0) 2 5,
       HandleCopy (fun _ => none)
         (sampleDecode (Function.update (fun _ => 0) 2 5)))) ∧
    CallMethod 4 2 sampleDecode (fun _ => none) (fun _ => 0) ⟨9, 5⟩ =
      ((fun _ => 0 : Nat → Nat), [Event.assertFail AssertId.invalidRegister]) := by
  constructor
  · have h := (callMethod_stores_before_copy 4 2 sampleDecode (fun _ => none)
      (fun _ => 0) ⟨2, 5⟩).1 (by decide)
    rw [h]
    simp
  · exact (callMethod_stores_before_copy 4 2 sampleDecode (fun _ => none)
      (fun _ => 0) ⟨9, 5⟩).2 (by decide)

/-- Claim C10, counterexample to the claimed invalidate range: with
destination layout `size_x = size_y = 2^16` the product is computed in
32-bit arithmetic and wraps to 0, so the invalidated range is 0 bytes, not
the claimed `size_x * size_y = 2^32`. -/
theorem handleCopy_swizzle_bpp_one_claim_cex :
    Event.invalidateRegion 0 (2 ^ 16 * 2 ^ 16) ∉
      HandleCopy (fun _ => some 0)
        ⟨0, 0, 4, 0, 4, 1, ⟨false, 0, 0, 2, true, false, true⟩,
         ⟨0, 0, 0, 0, 1, 0⟩, ⟨0, 0, 2 ^ 16, 2 ^ 16, 1, 0⟩⟩ := by decide

/-- Claim C10 (amended): on the source-linear destination-tiled path, under
the enforced precondition `source_pitch = x_count` with `x_count > 0`, the
computed bytes-per-pixel `source_pitch / x_count` equals 1; the invalidated
destination range is `destination_layout.size_x * destination_layout.size_y
mod 2^32` bytes (32-bit product), and the swizzle transform is invoked with
bytes-per-pixel 1. -/
theorem handleCopy_swizzle_bpp_one (gp : Nat → Option Nat) (regs : Regs)
    (src_ptr dst_ptr : Nat)
    (hv : validationOk regs)
    (hs : regs.exec.is_src_linear = true) (hd : regs.exec.is_dst_linear = false)
    (h2 : regs.exec.enable_2d = true)
    (hz : regs.dst_params.size_z = 1)
    (hp : regs.src_pitch = regs.x_count)
    (hx : 0 < regs.x_count)
    (hgs : gp regs.src_address = some src_ptr)
    (hgd : gp regs.dst_address = some dst_ptr) :
    regs.src_pitch / regs.x_count = 1 ∧
    HandleCopy gp regs =
      [Event.notifyMemoryWritten,
       Event.flushRegion src_ptr (regs.src_pitch * regs.y_count % U32),
       Event.invalidateRegion dst_ptr
         (regs.dst_params.size_x * regs.dst_params.size_y % U32),
       Event.swizzleSubrect regs.x_count regs.y_count regs.src_pitch
         regs.dst_params.size_x 1 dst_ptr src_ptr
         regs.dst_params.BlockHeight] := by
  have hbpp : regs.src_pitch / regs.x_count = 1 := by
    rw [hp]; exact Nat.div_self hx
  refine ⟨hbpp, ?_⟩
  rw [handleCopy_of_validationOk gp regs hv (Or.inl hs),
    copyEvents_swizzle gp regs src_ptr dst_ptr hs hd h2 hgs hgd]
  unfold swizzleEvents
  simp [hz, hp, hbpp, Nat.div_self hx]

/-- Witness for the amended C10: a 4×2 packed linear source swizzled into
an 8×4 tiled destination with block height 2. -/
theorem handleCopy_swizzle_bpp_one_witness :
    (4 : Nat) / 4 = 1 ∧
    HandleCopy (fun a => if a = 7 then some 50 else some 60)
        ⟨7, 9, 4, 0, 4, 2, ⟨false, 0, 0, 2, true, false, true⟩,
         ⟨0, 0, 0, 0, 1, 0⟩, ⟨0, 0, 8, 4, 1, 1⟩⟩ =
      [Event.notifyMemoryWritten,
       Event.flushRegion 50 (4 * 2 % U32),
       Event.invalidateRegion 60 (8 * 4 % U32),
       Event.swizzleSubrect 4 2 4 8 1 60 50
         (Parameters.BlockHeight ⟨0, 0, 8, 4, 1, 1⟩)] :=
  handleCopy_swizzle_bpp_one (fun a => if a = 7 then some 50 else some 60)
    ⟨7, 9, 4, 0, 4, 2, ⟨false, 0, 0, 2, true, false, true⟩,
     ⟨0, 0, 0, 0, 1, 0⟩, ⟨0, 0, 8, 4, 1, 1⟩⟩ 50 60
    ⟨rfl, rfl, rfl, rfl, rfl, rfl⟩ rfl rfl rfl rfl rfl (by decide) rfl rfl

end MaxwellDMA
